import Mathlib

set_option autoImplicit false

/-!
Shallow embedding of the swagger2dcat wizard's state-reconciliation core
(`app.py` together with `utils/session_utils.py` and `utils/deepl_utils.py`).

Python dictionaries are modelled as insertion-ordered association lists with
string keys; Flask's server-side session and the sidecar JSON/pickle files are
explicit state records threaded through the route functions; external
collaborators (Swagger extraction, web scraping, the agents directory) are
oracles passed in as parameters.  Machine-level details that no claim touches
(timing metrics, logging, template rendering) are omitted.
-/

/-- `d.get(k)` on a Python dict, modelled as first-match lookup in an
insertion-ordered association list. -/
def alookup {α : Type} (l : List (String × α)) (k : String) : Option α :=
  match l with
  | [] => none
  | (k', v) :: t => if k' = k then some v else alookup t k

/-- `d[k] = v` on a Python dict: replace the binding in place when the key is
present, otherwise append the new binding at the end. -/
def aset {α : Type} (l : List (String × α)) (k : String) (v : α) : List (String × α) :=
  match l with
  | [] => [(k, v)]
  | (k', v') :: t => if k' = k then (k', v) :: t else (k', v') :: aset t k v

/-- `del d[k]` on a Python dict. -/
def aremove {α : Type} (l : List (String × α)) (k : String) : List (String × α) :=
  l.filter (fun p => p.1 != k)

/-- Python's whitespace test used by `str.strip`. -/
def isPySpace (c : Char) : Bool :=
  c = ' ' || c = '\t' || c = '\n' || c = '\r' || c = '\x0b' || c = '\x0c'

/-- Python `s.strip()`. -/
def pyStrip (s : String) : String :=
  String.mk (((s.data.dropWhile isPySpace).reverse.dropWhile isPySpace).reverse)

/-- Python `s.lower()` (ASCII fragment, which covers every string the routes
compare). -/
def pyLower (s : String) : String := String.mk (s.data.map Char.toLower)

/-- Python `s.upper()` (ASCII fragment). -/
def pyUpper (s : String) : String := String.mk (s.data.map Char.toUpper)

/-- Python `a or b` on strings, where the empty string is falsy. -/
def pyOrS (a b : String) : String := if a = "" then b else a

/-- Python `a or b` on lists, where the empty list is falsy. -/
def pyOrL {α : Type} (a b : List α) : List α := if a.isEmpty then b else a

/-- Truthiness of an optional string session/query value: absent and `""` are
both falsy. -/
def pyTruthyS : Option String → Bool
  | none => false
  | some s => s != ""

/-- Python `a or b` where `a`, `b` are optional strings. -/
def pyOrOpt (a b : Option String) : Option String := if pyTruthyS a then a else b

/-- Helper for `splitOnChar`: accumulate the current chunk (reversed). -/
def splitOnCharAux (sep : Char) : List Char → List Char → List (List Char)
  | [], acc => [acc.reverse]
  | c :: t, acc =>
    if c = sep then acc.reverse :: splitOnCharAux sep t []
    else splitOnCharAux sep t (c :: acc)

/-- Python `s.split(sep)` for a one-character separator (`','`, `'.'`, `'/'`). -/
def splitOnChar (sep : Char) (s : String) : List String :=
  (splitOnCharAux sep s.data []).map String.mk

/-- The keyword-field parser used by both review routes:
`[kw.strip() for kw in s.split(',') if kw.strip()]`. -/
def splitKeywords (s : String) : List String :=
  ((splitOnChar ',' s).map pyStrip).filter (fun kw => kw != "")

/-! ## Translations maps -/

/-- One language's `{title, description, keywords}` record. -/
structure TransEntry where
  title : String
  description : String
  keywords : List String
deriving DecidableEq

/-- A value stored under a language key.  The routes guard with
`isinstance(lang_data, dict)`, so a non-dict JSON value is representable. -/
inductive LangVal where
  | dict (e : TransEntry)
  | nondict
deriving DecidableEq

/-- `translations`: language code mapped to content, insertion ordered. -/
abbrev Translations := List (String × LangVal)

/-- `isinstance(lang_data, dict) and (lang_data.get('title') or lang_data.get('description'))`. -/
def entryHasContent : LangVal → Bool
  | .dict e => !(e.title == "") || !(e.description == "")
  | .nondict => false

/-- The acceptance test applied to each tier in `/upload` (app.py:787-807):
the negation of `not translations or not any(...)`. -/
def acceptsTranslations (t : Translations) : Bool :=
  !t.isEmpty && t.any (fun p => entryHasContent p.2)

/-- `{'title': '', 'description': '', 'keywords': []}`. -/
def emptyEntry : LangVal := .dict ⟨"", "", []⟩

/-- The fallback structure synthesized in `/upload` (app.py:817-826): English
seeded from the authoritative content, the other languages empty. -/
def synthTranslations (title description : String) (keywords : List String) : Translations :=
  [("en", .dict ⟨title, description, keywords⟩),
   ("de", emptyEntry), ("fr", emptyEntry), ("it", emptyEntry)]

/-! ## The `/upload` translations reconciliation (app.py:774-837) -/

/-- The state visible to the `/upload` translations reconciliation: the durable
file tier (`load_from_session_file('translations', {})`), the fast session tier
(`session.get('translations', {})`), and the fallback sources
(`session['title']`/`['generated_title']`/`api_details['title']`, likewise for
description and keywords; an absent session key is the falsy `""`/`[]`). -/
structure UploadCtx where
  fileTranslations : Translations
  sessTranslations : Translations
  sessTitle : String
  sessGeneratedTitle : String
  sessDescription : String
  sessGeneratedDescription : String
  sessKeywords : List String
  sessGeneratedKeywords : List String
  apiTitle : String
  apiDescription : String
  apiKeywords : List String
  translationsAvailable : Bool
deriving DecidableEq

/-- What `/upload` does after reconciling translations: render the review page
with the reconciled map, or flash a warning and redirect to the `/ai`
metadata-entry step. -/
inductive UploadOutcome where
  | review (t : Translations)
  | redirectAi
deriving DecidableEq

/-- `session.get('title') or session.get('generated_title', '') or api_details.get('title', '')`. -/
def uploadFallbackTitle (c : UploadCtx) : String :=
  pyOrS (pyOrS c.sessTitle c.sessGeneratedTitle) c.apiTitle

/-- `session.get('description') or session.get('generated_description', '') or api_details.get('description', '')`. -/
def uploadFallbackDescription (c : UploadCtx) : String :=
  pyOrS (pyOrS c.sessDescription c.sessGeneratedDescription) c.apiDescription

/-- `session.get('keywords') or session.get('generated_keywords', []) or api_details.get('keywords', [])`. -/
def uploadFallbackKeywords (c : UploadCtx) : List String :=
  pyOrL (pyOrL c.sessKeywords c.sessGeneratedKeywords) c.apiKeywords

/-- The translations-reconciliation prefix of the `/upload` route
(app.py:774-837), translated clause by clause:
file tier first, session tier if the file data fails the acceptance test,
synthesis from the authoritative title/description/keywords (persisted to the
file tier and marked available) otherwise, and a redirect to `/ai` when no
source yields a title or description.  The returned context records the tier
writes (`save_to_session_file('translations', ...)`,
`session['translations'] = ...`, `session['translations_available'] = True`). -/
def uploadReconcile (c : UploadCtx) : UploadOutcome × UploadCtx :=
  let t0 := c.fileTranslations
  let t1 := if acceptsTranslations t0 then t0
            else if acceptsTranslations c.sessTranslations then c.sessTranslations
            else t0
  if acceptsTranslations t1 then
    (.review t1, { c with sessTranslations := t1, translationsAvailable := true })
  else
    let title := uploadFallbackTitle c
    let descr := uploadFallbackDescription c
    let kws := uploadFallbackKeywords c
    if title ≠ "" ∨ descr ≠ "" then
      let t := synthTranslations title descr kws
      (.review t,
       { c with fileTranslations := t, sessTranslations := t, translationsAvailable := true })
    else
      (.redirectAi, c)

/-- The reconciliation cascade exactly as the specification words it (step (a)
accept the durable tier, step (b) accept the fast tier, step (c) synthesize,
persist and mark available, step (d) hard stop with a redirect).  Written
independently of `uploadReconcile` to compare the two. -/
def reconcileTranslationsSpec (c : UploadCtx) : UploadOutcome × UploadCtx :=
  if acceptsTranslations c.fileTranslations then
    (.review c.fileTranslations,
     { c with sessTranslations := c.fileTranslations, translationsAvailable := true })
  else if acceptsTranslations c.sessTranslations then
    (.review c.sessTranslations,
     { c with sessTranslations := c.sessTranslations, translationsAvailable := true })
  else if uploadFallbackTitle c ≠ "" ∨ uploadFallbackDescription c ≠ "" then
    let t := synthTranslations (uploadFallbackTitle c) (uploadFallbackDescription c)
               (uploadFallbackKeywords c)
    (.review t,
     { c with fileTranslations := t, sessTranslations := t, translationsAvailable := true })
  else
    (.redirectAi, c)

/-- An `UploadCtx` with every tier and fallback source empty. -/
def emptyUploadCtx : UploadCtx :=
  { fileTranslations := [], sessTranslations := [],
    sessTitle := "", sessGeneratedTitle := "",
    sessDescription := "", sessGeneratedDescription := "",
    sessKeywords := [], sessGeneratedKeywords := [],
    apiTitle := "", apiDescription := "", apiKeywords := [],
    translationsAvailable := false }

/-- The durable-tier map of claim C1: English empty, German populated. -/
def c1FileMap : Translations :=
  [("en", .dict ⟨"", "", []⟩), ("de", .dict ⟨"Titel", "Beschreibung", []⟩)]

/-- A workflow whose durable tier holds `c1FileMap` and whose other sources are
empty. -/
def c1Ctx : UploadCtx := { emptyUploadCtx with fileTranslations := c1FileMap }

/-! ## The review autosave (app.py:1700-1775) -/

/-- Per-language string map over `{de, en, fr, it}`. -/
structure Lang4 where
  de : String
  en : String
  fr : String
  it : String
deriving DecidableEq

/-- Per-language string map over `{de, en, fr, it, rm}` (the `fn` field). -/
structure Lang5 where
  de : String
  en : String
  fr : String
  it : String
  rm : String
deriving DecidableEq

/-- The contact-point record in the shape `/autosave_review` reads and writes
(`org`/`adrWork`/`emailInternet`/`telWorkVoice`/`note`, plus the `fn` block it
backfills). -/
structure ContactPoint where
  emailInternet : String
  org : Lang4
  adrWork : Lang4
  note : Lang4
  telWorkVoice : String
  fn : Option Lang5
deriving DecidableEq

/-- `default_contact_point` of `/autosave_review` (app.py:1709-1716). -/
def autosaveDefaultCP : ContactPoint :=
  { emailInternet := "", org := ⟨"", "", "", ""⟩, adrWork := ⟨"", "", "", ""⟩,
    note := ⟨"", "", "", ""⟩, telWorkVoice := "", fn := some ⟨"", "", "", "", ""⟩ }

/-- A document link `{href, label, type}`. -/
structure DocLink where
  href : String
  label : String
  type : String
deriving DecidableEq

/-- `l[-1]` of a non-empty list of strings. -/
def lastD (l : List String) : String := (l.getLast?).getD ""

/-- The document-links rebuild shared by `/upload` POST and `/autosave_review`
(app.py:1755-1767): keep the rows whose href is non-blank, strip href and
label, and derive `type` from the extension. -/
def rebuildDocLinks (labels hrefs : List String) : List DocLink :=
  (List.range labels.length).filterMap fun i =>
    let href0 := hrefs.getD i ""
    if i < hrefs.length ∧ pyStrip href0 ≠ "" then
      let href := pyStrip href0
      let label := pyStrip (labels.getD i "")
      let ty := if href.data.contains '.' then pyLower (lastD (splitOnChar '.' href)) else ""
      some ⟨href, label, ty⟩
    else none

/-- The net effect of `translations[lang]['title'] = t;
translations[lang]['description'] = d; translations[lang]['keywords'] = kws`:
replace the whole entry, or raise `KeyError`/`TypeError` (modelled as `none`)
when `lang` is absent or not a dict. -/
def setLang (t : Translations) (lang title descr : String) (kws : List String) :
    Option Translations :=
  match alookup t lang with
  | some (.dict _) => some (aset t lang (.dict ⟨title, descr, kws⟩))
  | _ => none

/-- The fields of the review form read by `/autosave_review`; an absent field
is `request.form.get(name, '')`, i.e. `""`. -/
structure ReviewForm where
  title_en : String
  description_en : String
  keywords_en : String
  title_de : String
  description_de : String
  keywords_de : String
  title_fr : String
  description_fr : String
  keywords_fr : String
  title_it : String
  description_it : String
  keywords_it : String
  org_de : String
  org_en : String
  org_fr : String
  org_it : String
  adr_de : String
  adr_en : String
  adr_fr : String
  adr_it : String
  emailInternet : String
  telWorkVoice : String
  note_de : String
  note_en : String
  note_fr : String
  note_it : String
  doc_labels : List String
  doc_hrefs : List String
deriving DecidableEq

/-- What `/autosave_review` stores: `session['translations']` and the
translations file both receive `translations`, `session['contact_point']`
receives `contact_point`, `session['document_links']` receives
`document_links`. -/
structure AutosaveResult where
  translations : Translations
  contact_point : ContactPoint
  document_links : List DocLink
deriving DecidableEq

/-- `/autosave_review` (app.py:1700-1775).  `fileT` is
`load_from_session_file('translations', {})` (with `{}` for a missing or
unreadable file), `sessT` is `session.get('translations', {})`, `sessCP` is
the session's contact point if present.  `none` models the `KeyError` raised
when the chosen translations map lacks one of the four language dicts. -/
def autosave_review (form : ReviewForm) (fileT sessT : Translations)
    (sessCP : Option ContactPoint) : Option AutosaveResult :=
  let t0 := if fileT.isEmpty then sessT else fileT
  let cp0 := sessCP.getD autosaveDefaultCP
  (setLang t0 "en" form.title_en form.description_en (splitKeywords form.keywords_en)).bind fun t1 =>
  (setLang t1 "de" form.title_de form.description_de (splitKeywords form.keywords_de)).bind fun t2 =>
  (setLang t2 "fr" form.title_fr form.description_fr (splitKeywords form.keywords_fr)).bind fun t3 =>
  (setLang t3 "it" form.title_it form.description_it (splitKeywords form.keywords_it)).bind fun t4 =>
  let cp1 : ContactPoint :=
    { org := ⟨form.org_de, form.org_en, form.org_fr, form.org_it⟩,
      adrWork := ⟨form.adr_de, form.adr_en, form.adr_fr, form.adr_it⟩,
      emailInternet := form.emailInternet,
      telWorkVoice := form.telWorkVoice,
      note := ⟨form.note_de, form.note_en, form.note_fr, form.note_it⟩,
      fn := some (cp0.fn.getD ⟨"", "", "", "", ""⟩) }
  some ⟨t4, cp1, rebuildDocLinks form.doc_labels form.doc_hrefs⟩

/-- A concrete review form for the C4 witness. -/
def c4Form : ReviewForm :=
  { title_en := "T", description_en := "D", keywords_en := "a, b",
    title_de := "TD", description_de := "DD", keywords_de := "",
    title_fr := "", description_fr := "", keywords_fr := "",
    title_it := "", description_it := "", keywords_it := "",
    org_de := "", org_en := "Org", org_fr := "", org_it := "",
    adr_de := "", adr_en := "", adr_fr := "", adr_it := "",
    emailInternet := "x@y.z", telWorkVoice := "",
    note_de := "", note_en := "", note_fr := "", note_it := "",
    doc_labels := ["Doc"], doc_hrefs := ["https://e.x/a.pdf"] }

/-- A pre-existing file-tier map with stale content in every slot. -/
def c4Tiers : Translations :=
  [("en", .dict ⟨"old", "old", ["old"]⟩), ("de", emptyEntry),
   ("fr", emptyEntry), ("it", emptyEntry)]

/-- The stored result of autosaving `c4Form` over `c4Tiers`. -/
def c4Result : AutosaveResult :=
  { translations :=
      [("en", .dict ⟨"T", "D", ["a", "b"]⟩), ("de", .dict ⟨"TD", "DD", []⟩),
       ("fr", emptyEntry), ("it", emptyEntry)],
    contact_point :=
      { emailInternet := "x@y.z", org := ⟨"", "Org", "", ""⟩,
        adrWork := ⟨"", "", "", ""⟩, note := ⟨"", "", "", ""⟩,
        telWorkVoice := "", fn := some ⟨"", "", "", "", ""⟩ },
    document_links := [⟨"https://e.x/a.pdf", "Doc", "pdf"⟩] }

/-! ## Publisher auto-detection (app.py:199-215 and the `/ai` route, 645-655) -/

/-- A publisher-directory entry; only the `id` field is read by detection
(`agent.get('id', '')`). -/
structure Agent where
  id : String
deriving DecidableEq

/-- The character class `[a-z0-9\-]` under `re.IGNORECASE`. -/
def abbrevClassChar (c : Char) : Bool :=
  ('a' ≤ c && c ≤ 'z') || ('A' ≤ c && c ≤ 'Z') || ('0' ≤ c && c ≤ '9') || c = '-'

/-- Case-insensitive literal match: consume `pat` from the front of `s` and
return the rest, or fail. -/
def ciPrefixDrop : List Char → List Char → Option (List Char)
  | [], s => some s
  | _, [] => none
  | p :: pt, c :: ct => if p.toLower = c.toLower then ciPrefixDrop pt ct else none

/-- Match `://([a-z0-9\-]+)\.admin\.ch` (IGNORECASE) at the start of `r`,
returning the capture group.  The `+` is greedy; no backtracking into the
group can succeed because the class excludes `'.'`, so the maximal run is the
only candidate. -/
def adminChTail (r : List Char) : Option (List Char) :=
  match ciPrefixDrop "://".data r with
  | none => none
  | some r3 =>
    let g := r3.takeWhile abbrevClassChar
    let rest := r3.drop g.length
    if g.isEmpty then none
    else
      match ciPrefixDrop ".admin.ch".data rest with
      | some _ => some g
      | none => none

/-- Match the whole pattern `https?://([a-z0-9\-]+)\.admin\.ch` (IGNORECASE)
anchored at the start of `s`; the optional greedy `s?` is tried consumed
first, then backtracked. -/
def adminChMatchAt (s : List Char) : Option (List Char) :=
  match ciPrefixDrop "http".data s with
  | none => none
  | some r =>
    match r with
    | [] => adminChTail r
    | c :: t =>
      if c.toLower = 's' then
        match adminChTail t with
        | some g => some g
        | none => adminChTail r
      else adminChTail r

/-- `re.search(r"https?://([a-z0-9\-]+)\.admin\.ch", url, re.IGNORECASE)`:
try each start position left to right and return the first capture. -/
def adminChSearch : List Char → Option (List Char)
  | [] => none
  | c :: t =>
    match adminChMatchAt (c :: t) with
    | some g => some g
    | none => adminChSearch t

/-- Python's case-sensitive substring test `needle in hay`. -/
def containsSub (needle : List Char) : List Char → Bool
  | [] => needle.isEmpty
  | c :: t => needle.isPrefixOf (c :: t) || containsSub needle t

/-- `detect_office_id_from_url` (app.py:199-215): guard on `"admin.ch" in url`,
extract the first DNS label via the regex, form `CH_` + upper/lower candidates
and return the first one whose id matches an agent case-insensitively. -/
def detect_office_id_from_url (url : String) (agents : List Agent) : Option String :=
  if url = "" || !(containsSub "admin.ch".data url.data) then none
  else
    match adminChSearch url.data with
    | some g =>
      let ab := String.mk g
      if ab = "" then none
      else
        let pid1 := "CH_" ++ pyUpper ab
        let pid2 := "CH_" ++ pyLower ab
        if agents.any (fun a => pyLower a.id == pyLower pid1) then some pid1
        else if agents.any (fun a => pyLower a.id == pyLower pid2) then some pid2
        else none
    | none => none

/-- The office-detection block of the `/ai` route (app.py:645-655): when no
publisher is selected yet, try the primary source URL then the landing-page
URL, in that order, and keep `selected_agency` unchanged when neither
matches. -/
def ai_detect_selected_agency (swaggerUrl landingUrl : String) (agents : List Agent)
    (selectedAgency : String) : String :=
  if selectedAgency ≠ "" then selectedAgency
  else
    match detect_office_id_from_url swaggerUrl agents with
    | some d => d
    | none =>
      match detect_office_id_from_url landingUrl agents with
      | some d => d
      | none => selectedAgency

/-! ## Processing-id validation and the temp-file store (app.py:140-194) -/

/-- The character class `[a-f0-9-]`: lowercase hex digits and dash. -/
def hexDashChar (c : Char) : Bool :=
  ('a' ≤ c && c ≤ 'f') || ('0' ≤ c && c ≤ '9') || c = '-'

/-- Python `bool(re.match(r'^[a-f0-9-]+$', s))`.  Python's `$` matches at the
end of the string or just before one trailing newline, so `"a\n"` matches. -/
def pyMatchHexDash (s : String) : Bool :=
  match s.data.getLast? with
  | none => false
  | some c =>
    if c = '\n' then !s.data.dropLast.isEmpty && s.data.dropLast.all hexDashChar
    else s.data.all hexDashChar

/-- `f"swagger2dcat_{processing_id}.pkl"`. -/
def tmpFileName (procId : String) : String := "swagger2dcat_" ++ procId ++ ".pkl"

/-- Depth tracking for the `realpath` containment check: resolve `..`/`.`
components of a path relative to the temp directory and report whether it
ever climbs above it. -/
def pathDepthEscapes : Int → List String → Bool
  | _, [] => false
  | d, c :: t =>
    if c = ".." then (if d ≤ 0 then true else pathDepthEscapes (d - 1) t)
    else if c = "." || c = "" then pathDepthEscapes d t
    else pathDepthEscapes (d + 1) t

/-- `not real_temp_file.startswith(real_temp_dir)` for
`temp_dir/swagger2dcat_{id}.pkl` (symlinks are not modelled; an id without
`/` never escapes). -/
def escapesTempDir (procId : String) : Bool :=
  pathDepthEscapes 0 (splitOnChar '/' (tmpFileName procId))

/-- The fields of `extract_swagger_info`'s result read by the workflow core
(`error` present iff parsing failed). -/
structure SwaggerInfo where
  title : String
  description : String
  keywords : List String
  errorMsg : Option String
deriving DecidableEq

/-- `address_data`: a plain string-valued dict, `{}` when nothing was
scraped. -/
abbrev AddressData := List (String × String)

/-- A pickled payload in the temp-file store.  Both blob shapes the code
writes (the full pipeline payload of app.py:343-358 and the `{'agents': ...}`
blob of app.py:485) are dicts, so every field is optional; an absent key reads
through `.get` defaults.  (`processing_metrics`, which no claim touches, is
omitted.) -/
structure StoredData where
  swagger_info : Option SwaggerInfo := none
  landing_page_content : Option String := none
  document_links : Option (List DocLink) := none
  agents : Option (List Agent) := none
  agents_error : Option (Option String) := none
  address_data : Option AddressData := none
  swagger_url : Option String := none
  landing_page_url : Option String := none
deriving DecidableEq

/-- The temp directory's contents, keyed by file name. -/
abbrev FileStore := List (String × StoredData)

/-- `save_processing_data` (app.py:140-164): validate the id, check the
resolved path stays inside the temp dir, then write the pickle; `False` plus
an unchanged store models every early return. -/
def save_processing_data (procId : String) (data : StoredData) (files : FileStore) :
    Bool × FileStore :=
  if !pyMatchHexDash procId then (false, files)
  else if escapesTempDir procId then (false, files)
  else (true, aset files (tmpFileName procId) data)

/-- `load_processing_data` (app.py:166-194): validate the id and path, read
the pickle if the file exists and delete it afterwards; `none` plus an
unchanged store models every early return and the missing-file case. -/
def load_processing_data (procId : String) (files : FileStore) :
    Option StoredData × FileStore :=
  if !pyMatchHexDash procId then (none, files)
  else if escapesTempDir procId then (none, files)
  else
    match alookup files (tmpFileName procId) with
    | some d => (some d, aremove files (tmpFileName procId))
    | none => (none, files)

/-! ## The job registry and the status poll (app.py:411-517) -/

/-- `processing_results[...]['status']` values. -/
inductive JobStatus where
  | processing
  | complete
  | error
deriving DecidableEq

/-- A progress snapshot as written by the pipeline. -/
structure Progress where
  current_step : String
  percent : Nat
  steps_completed : Nat
  total_steps : Nat
deriving DecidableEq

/-- One `processing_results` entry (`created_at`, which no claim touches, is
omitted). -/
structure JobEntry where
  status : JobStatus
  progress : Option Progress
  errMsg : Option String
deriving DecidableEq

/-- The session keys touched by the status poll. -/
structure SessionSt where
  processing_id : Option String := none
  processing_status : Option String := none
  processing_error : Option String := none
  swagger_info : Option SwaggerInfo := none
  landing_page_content : Option String := none
  document_links : Option (List DocLink) := none
  swagger_url : Option String := none
  landing_page_url : Option String := none
  address_data : Option AddressData := none
  agents_temp_id : Option String := none
  agents_error : Option String := none
deriving DecidableEq

/-- Process-wide state threaded through the routes: the in-memory
`processing_results` registry, the temp-file store, and the session. -/
structure SrvState where
  registry : List (String × JobEntry)
  files : FileStore
  sess : SessionSt
deriving DecidableEq

/-- The JSON responses of `/check_processing_status`. -/
inductive PollResponse where
  | err (message : String)
  | processing (step : String) (percent : Nat)
  | complete
deriving DecidableEq

/-- The stale-id response text (app.py:517). -/
def expiredMsg : String := "Processing session expired. Please start over."

/-- `/check_processing_status` (app.py:411-517).  `queryId` is the
`processing_id` query parameter; `freshAgentsId` is the `uuid4` drawn for the
agents side-blob on the complete path. -/
def check_processing_status (queryId : Option String) (freshAgentsId : String)
    (st : SrvState) : PollResponse × SrvState :=
  match pyOrOpt queryId st.sess.processing_id with
  | none => (.err "No processing ID found", st)
  | some pid =>
    if pid = "" then (.err "No processing ID found", st)
    else
      let st1 : SrvState := { st with sess := { st.sess with processing_id := some pid } }
      match alookup st1.registry pid with
      | some e =>
        match e.status with
        | .processing =>
          (.processing ((e.progress.map Progress.current_step).getD "Analyzing API information")
             ((e.progress.map Progress.percent).getD 25), st1)
        | .complete =>
          match load_processing_data pid st1.files with
          | (some d, files1) =>
            let sess2 := { st1.sess with
              swagger_info := some (d.swagger_info.getD ⟨"", "", [], none⟩),
              landing_page_content := some (d.landing_page_content.getD ""),
              document_links := some (d.document_links.getD []),
              processing_status := some "complete",
              swagger_url := some (d.swagger_url.getD ""),
              landing_page_url := some (d.landing_page_url.getD "") }
            let sess3 := match d.address_data with
              | some a => { sess2 with address_data := some a }
              | none => sess2
            let fs2 := match d.agents with
              | some ags => (save_processing_data freshAgentsId { agents := some ags } files1).2
              | none => files1
            let sess4 := match d.agents with
              | some _ => { sess3 with agents_temp_id := some freshAgentsId }
              | none => sess3
            let sess5 := match d.agents_error with
              | some ae => { sess4 with agents_error := ae }
              | none => sess4
            (.complete, { registry := aremove st1.registry pid, files := fs2, sess := sess5 })
          | (none, files1) =>
            (.err "Failed to load processing data", { st1 with files := files1 })
        | .error =>
          let msg := (e.errMsg).getD "Unknown error"
          let sessE := { st1.sess with processing_status := some "error", processing_error := some msg }
          (.err msg, { st1 with sess := sessE, registry := aremove st1.registry pid })
      | none =>
        (.err expiredMsg, { st1 with sess := { st1.sess with processing_id := none } })

/-! ## The background pipeline (app.py:224-397) -/

/-- `extract_web_content`'s tuple result
`(title, description, content, doc_links, address_data)`. -/
structure WebResult where
  title : String
  description : String
  content : String
  doc_links : List DocLink
  address_data : AddressData
deriving DecidableEq

/-- The external collaborators called by the pipeline, as oracles.  A
`.error` result models the call raising; `get_cached_agents` never raises
(it catches internally and falls back to the cache or `[]`). -/
structure Collaborators where
  extract_swagger_info : String → Except String SwaggerInfo
  extract_web_content : String → Except String WebResult
  cached_agents : List Agent

/-- The observable outcome of one pipeline run: the final process state, the
progress snapshots actually written to the registry (in write order), and
whether the page-scraper collaborator was invoked. -/
structure RunResult where
  state : SrvState
  trace : List Progress
  scrapeCalled : Bool

/-- `processing_results[proc_id]['progress'] = {...}` guarded by
`if proc_id in processing_results`; returns the snapshot when it was
written. -/
def update_progress (st : SrvState) (pid : String) (p : Progress) :
    SrvState × Option Progress :=
  match alookup st.registry pid with
  | some e => ({ st with registry := aset st.registry pid { e with progress := some p } }, some p)
  | none => (st, none)

/-- The `except` handler of `process_api_data` (app.py:371-381): set
status/error on the existing entry, creating one when the id is unknown. -/
def markFail (st : SrvState) (pid msg : String) : SrvState :=
  match alookup st.registry pid with
  | some e =>
    { st with registry := aset st.registry pid { e with status := .error, errMsg := some msg } }
  | none => { st with registry := aset st.registry pid ⟨.error, none, some msg⟩ }

/-- `processing_results[proc_id]['status'] = 'complete'` guarded by
membership (app.py:360-364). -/
def markComplete (st : SrvState) (pid : String) : SrvState :=
  match alookup st.registry pid with
  | some e => { st with registry := aset st.registry pid { e with status := .complete } }
  | none => st

/-- The save-failure branch (app.py:365-369), guarded by membership. -/
def markSaveFailed (st : SrvState) (pid : String) : SrvState :=
  match alookup st.registry pid with
  | some e =>
    let e2 := { e with status := JobStatus.error, errMsg := some "Failed to save processing data" }
    { st with registry := aset st.registry pid e2 }
  | none => st

/-- Steps 3 onward of the pipeline (agents fetch, 75% and 99% checkpoints,
payload assembly, save, terminal status), shared by the scraped and skipped
landing-page branches. -/
def process_finish (co : Collaborators) (pid swaggerUrl landingUrl : String)
    (sw : SwaggerInfo) (lpc : String) (dls : List DocLink) (adr : AddressData)
    (scraped : Bool) (st : SrvState) (tr : List Progress) : RunResult :=
  let s4 := update_progress st pid ⟨"Loading metadata", 75, 2, 3⟩
  let agents := co.cached_agents
  let agentsError : Option String :=
    if agents.isEmpty then some "Failed to fetch agents" else none
  let s5 := update_progress s4.1 pid ⟨"Finalizing", 99, 3, 3⟩
  let data : StoredData :=
    { swagger_info := some sw, landing_page_content := some lpc,
      document_links := some dls, agents := some agents,
      agents_error := some agentsError, address_data := some adr,
      swagger_url := some swaggerUrl, landing_page_url := some landingUrl }
  let sv := save_processing_data pid data s5.1.files
  let st6 : SrvState := { s5.1 with files := sv.2 }
  let st7 := if sv.1 then markComplete st6 pid else markSaveFailed st6 pid
  { state := st7, trace := tr ++ s4.2.toList ++ s5.2.toList, scrapeCalled := scraped }

/-- The body of `process_api_data` (app.py:237-381): checkpoint 15, Swagger
extraction (an exception jumps to the `except` handler), checkpoints 40 and
50, the landing-page scrape — skipped entirely when
`landing_page_url and landing_page_url.strip()` is falsy — then
`process_finish`. -/
def process_api_data (co : Collaborators) (pid swaggerUrl landingUrl : String)
    (st : SrvState) : RunResult :=
  let s1 := update_progress st pid ⟨"Parsing Swagger definition", 15, 0, 3⟩
  match co.extract_swagger_info swaggerUrl with
  | .error e => { state := markFail s1.1 pid e, trace := s1.2.toList, scrapeCalled := false }
  | .ok sw =>
    let s2 := update_progress s1.1 pid ⟨"Swagger definition parsed", 40, 1, 3⟩
    let s3 := update_progress s2.1 pid ⟨"Processing landing page", 50, 1, 3⟩
    let tr := s1.2.toList ++ s2.2.toList ++ s3.2.toList
    if landingUrl ≠ "" ∧ pyStrip landingUrl ≠ "" then
      match co.extract_web_content landingUrl with
      | .error e => { state := markFail s3.1 pid e, trace := tr, scrapeCalled := true }
      | .ok w =>
        let lpc := if w.content ≠ "" then pyOrS w.description w.content else ""
        let dls := if w.content ≠ "" then w.doc_links else []
        process_finish co pid swaggerUrl landingUrl sw lpc dls w.address_data true s3.1 tr
    else
      process_finish co pid swaggerUrl landingUrl sw "" [] [] false s3.1 tr

/-- The POST branch of `/url` (app.py:226-397): create the registry entry,
write the 5% "Initializing..." snapshot, then run the pipeline (sequential
semantics for the background thread). -/
def url_post_launch (co : Collaborators) (workflowId swaggerUrl landingUrl : String)
    (st : SrvState) : RunResult :=
  let st1 : SrvState :=
    { st with registry := aset st.registry workflowId ⟨.processing, none, none⟩ }
  let p0 : Progress := ⟨"Initializing...", 5, 0, 3⟩
  let st2 : SrvState :=
    { st1 with registry := aset st1.registry workflowId ⟨.processing, some p0, none⟩ }
  let r := process_api_data co workflowId swaggerUrl landingUrl st2
  { r with trace := p0 :: r.trace }

/-! ## The auto-translation step of `/save_api_details` (app.py:1837-1904) -/

/-- The top-level names defined by `utils/deepl_utils.py`.  The route's
`from utils.deepl_utils import translate_to_language` raises `ImportError`
because that name is not among them (the module implements
`translate_from_english` and `translate_content` instead). -/
def deepl_utils_module_names : List String :=
  ["DEEPL_API_KEY", "translate_from_english", "translate_content"]

/-- One language's result from the (intended) `translate_to_language`
collaborator; `errorMsg` models the `error` key of a failed result. -/
structure LangTranslation where
  title : String
  description : String
  keywords : List String
  errorMsg : Option String
deriving DecidableEq

/-- The `for target_lang in ['de', 'fr', 'it']` loop body (app.py:1861-1877):
a successful, error-free result replaces the language entry; a failed result
or an exception (oracle `none`) leaves it untouched. -/
def apply_auto_translate (oracle : String → Option LangTranslation)
    (t : Translations) : Translations :=
  ["de", "fr", "it"].foldl (fun acc lang =>
    match oracle lang with
    | some tr =>
      if tr.errorMsg = none then aset acc lang (.dict ⟨tr.title, tr.description, tr.keywords⟩)
      else acc
    | none => acc) t

/-- The translations map built by the AI-form branch of `/save_api_details`
(app.py:1843-1901): seed English, then attempt the auto-translation loop —
which is reachable only if `translate_to_language` could be imported; since
`utils/deepl_utils.py` does not define it, the `except ImportError` branch
always leaves the seeded map untouched. -/
def save_api_details_mkTranslations (oracle : String → Option LangTranslation)
    (title description : String) (keywords : List String) : Translations :=
  let base := synthTranslations title description keywords
  if deepl_utils_module_names.contains "translate_to_language" then
    apply_auto_translate oracle base
  else
    base

/-- An always-succeeding translation oracle (what a working DeepL call would
return): every target language gets non-empty title and description. -/
def c9GoodOracle : String → Option LangTranslation :=
  fun lang => some ⟨"Titel " ++ lang, "Beschreibung " ++ lang, ["kw"], none⟩

/-- A process state holding one failed job, for the C3 witness. -/
def c3State : SrvState :=
  { registry := [("abc", ⟨.error, none, some "boom"⟩)], files := [], sess := {} }

/-- Collaborators for the C6 witness: Swagger extraction succeeds, the scraper
would raise if it were ever called. -/
def c6Co : Collaborators :=
  { extract_swagger_info := fun _ => .ok ⟨"T", "D", [], none⟩,
    extract_web_content := fun _ => .error "net", cached_agents := [⟨"CH_X"⟩] }

/-- A process state holding one freshly launched job, for the C6 witness. -/
def c6State : SrvState :=
  { registry := [("ab12", ⟨.processing, none, none⟩)], files := [], sess := {} }

/-! ## Theorems -/

theorem alookup_aset_self {α : Type} (l : List (String × α)) (k : String) (v : α) :
    alookup (aset l k v) k = some v := by
  induction l with
  | nil => simp [aset, alookup]
  | cons hd t ih =>
    obtain ⟨k', v'⟩ := hd
    by_cases hk : k' = k <;> simp [aset, alookup, hk, ih]

theorem alookup_aset_ne {α : Type} (l : List (String × α)) (k k2 : String) (v : α)
    (h : k2 ≠ k) : alookup (aset l k2 v) k = alookup l k := by
  induction l with
  | nil => simp [aset, alookup, h]
  | cons hd t ih =>
    obtain ⟨k', v'⟩ := hd
    by_cases hk : k' = k2
    · subst hk
      simp [aset, alookup, h]
    · simp [aset, alookup, hk, ih]

theorem alookup_aremove_self {α : Type} (l : List (String × α)) (k : String) :
    alookup (aremove l k) k = none := by
  induction l with
  | nil => simp [aremove, alookup]
  | cons hd t ih =>
    obtain ⟨k', v'⟩ := hd
    by_cases hk : k' = k
    · have hb : (k' != k) = false := by simp [hk]
      simpa [aremove, List.filter_cons, hb] using ih
    · have hb : (k' != k) = true := by simp [hk]
      simp only [aremove, List.filter_cons, hb, if_true]
      simpa [alookup, hk, aremove] using ih

theorem accepts_synth (title descr : String) (kws : List String)
    (h : title ≠ "" ∨ descr ≠ "") :
    acceptsTranslations (synthTranslations title descr kws) = true := by
  rcases h with h | h <;>
    simp [acceptsTranslations, synthTranslations, entryHasContent, h]

/-- Claim C1 counterexample: the durable tier holds a map whose English entry
has empty title and description while German is populated; the acceptance test
accepts it and the reconciler passes it through unchanged instead of
regenerating. -/
theorem C1_counterexample :
    acceptsTranslations c1FileMap = true ∧
    alookup c1FileMap "en" = some (.dict ⟨"", "", []⟩) ∧
    uploadReconcile c1Ctx =
      (.review c1FileMap,
       { c1Ctx with sessTranslations := c1FileMap, translationsAvailable := true }) := by
  refine ⟨by decide, by decide, by decide⟩

/-- Claim C1 (amended): the reconciler's acceptance test does NOT single out
English — it accepts any stored map in which at least one language entry (of
any language) has a non-empty title or description, and then renders the review
step with that map unchanged, even when the English entry is empty. -/
theorem C1_acceptance_ignores_english (c : UploadCtx)
    (h : c.fileTranslations.any (fun p => entryHasContent p.2) = true) :
    uploadReconcile c =
      (.review c.fileTranslations,
       { c with sessTranslations := c.fileTranslations, translationsAvailable := true }) := by
  have hne : c.fileTranslations.isEmpty = false := by
    cases hc : c.fileTranslations with
    | nil => rw [hc] at h; simp at h
    | cons a t => simp
  have hacc : acceptsTranslations c.fileTranslations = true := by
    simp [acceptsTranslations, hne, h]
  simp [uploadReconcile, hacc]

theorem C1_witness :
    uploadReconcile c1Ctx =
      (.review c1FileMap,
       { c1Ctx with sessTranslations := c1FileMap, translationsAvailable := true }) :=
  C1_acceptance_ignores_english c1Ctx (by decide)

/-- Claim C2: the `/upload` translations reconciliation is exactly the
spec's cascade — (a) durable tier under the at-least-one-language acceptance
test, (b) fast tier under the same test, (c) synthesis seeded with the
authoritative English content (non-English empty), immediately persisted to the
durable tier and marked available in the fast tier, (d) otherwise a redirect to
the metadata-entry step. -/
theorem C2_reconciliation_cascade (c : UploadCtx) :
    uploadReconcile c = reconcileTranslationsSpec c := by
  by_cases h0 : acceptsTranslations c.fileTranslations <;>
    by_cases h1 : acceptsTranslations c.sessTranslations <;>
      simp [uploadReconcile, reconcileTranslationsSpec, h0, h1]

/-- Claim C5: translations reconciliation is idempotent — re-running the
`/upload` reconciliation on the state it produced (no tier mutation in
between) returns the same outcome and the same state. -/
theorem C5_reconcile_idempotent (c : UploadCtx) :
    uploadReconcile (uploadReconcile c).2 = uploadReconcile c := by
  by_cases h0 : acceptsTranslations c.fileTranslations
  · simp [uploadReconcile, h0]
  · by_cases h1 : acceptsTranslations c.sessTranslations
    · simp [uploadReconcile, h0, h1]
    · by_cases h2 : uploadFallbackTitle c ≠ "" ∨ uploadFallbackDescription c ≠ ""
      · have hs := accepts_synth (uploadFallbackTitle c) (uploadFallbackDescription c)
          (uploadFallbackKeywords c) h2
        simp [uploadReconcile, h0, h1, h2, hs]
      · simp [uploadReconcile, h0, h1, h2]

theorem setLang_lookup_self {t t' : Translations} {lang title descr : String}
    {kws : List String} (h : setLang t lang title descr kws = some t') :
    alookup t' lang = some (.dict ⟨title, descr, kws⟩) := by
  unfold setLang at h
  cases hl : alookup t lang with
  | none => rw [hl] at h; exact absurd h (by simp)
  | some v =>
    cases v with
    | nondict => rw [hl] at h; exact absurd h (by simp)
    | dict e =>
      rw [hl] at h
      obtain rfl : aset t lang (.dict ⟨title, descr, kws⟩) = t' := by simpa using h
      exact alookup_aset_self t lang _

theorem setLang_lookup_other {t t' : Translations} {lang lang2 title descr : String}
    {kws : List String} (h : setLang t lang title descr kws = some t')
    (hne : lang ≠ lang2) : alookup t' lang2 = alookup t lang2 := by
  unfold setLang at h
  cases hl : alookup t lang with
  | none => rw [hl] at h; exact absurd h (by simp)
  | some v =>
    cases v with
    | nondict => rw [hl] at h; exact absurd h (by simp)
    | dict e =>
      rw [hl] at h
      obtain rfl : aset t lang (.dict ⟨title, descr, kws⟩) = t' := by simpa using h
      exact alookup_aset_ne t lang2 lang _ hne

/-- Claim C4: whatever the fast/session tier and the durable/file tier held
before, every field value submitted with the review autosave request becomes
the authoritative stored value — each language's title and description equal
the submitted strings, each keywords list is parsed from the submitted string
alone, the contact-point fields equal the submitted values, and the stored
document links are rebuilt from the submitted rows; none of these depend on
`fileT`, `sessT` or `sessCP`. -/
theorem C4_request_input_wins (form : ReviewForm) (fileT sessT : Translations)
    (sessCP : Option ContactPoint) (r : AutosaveResult)
    (h : autosave_review form fileT sessT sessCP = some r) :
    alookup r.translations "en" =
      some (.dict ⟨form.title_en, form.description_en, splitKeywords form.keywords_en⟩) ∧
    alookup r.translations "de" =
      some (.dict ⟨form.title_de, form.description_de, splitKeywords form.keywords_de⟩) ∧
    alookup r.translations "fr" =
      some (.dict ⟨form.title_fr, form.description_fr, splitKeywords form.keywords_fr⟩) ∧
    alookup r.translations "it" =
      some (.dict ⟨form.title_it, form.description_it, splitKeywords form.keywords_it⟩) ∧
    r.contact_point.org = ⟨form.org_de, form.org_en, form.org_fr, form.org_it⟩ ∧
    r.contact_point.adrWork = ⟨form.adr_de, form.adr_en, form.adr_fr, form.adr_it⟩ ∧
    r.contact_point.note = ⟨form.note_de, form.note_en, form.note_fr, form.note_it⟩ ∧
    r.contact_point.emailInternet = form.emailInternet ∧
    r.contact_point.telWorkVoice = form.telWorkVoice ∧
    r.document_links = rebuildDocLinks form.doc_labels form.doc_hrefs := by
  unfold autosave_review at h
  simp only [Option.bind_eq_some] at h
  obtain ⟨t1, h1, t2, h2, t3, h3, t4, h4, hr⟩ := h
  obtain rfl : r = _ := by exact (Option.some.injEq _ _).mp hr.symm
  refine ⟨?_, ?_, ?_, ?_, rfl, rfl, rfl, rfl, rfl, rfl⟩
  · rw [setLang_lookup_other h4 (by decide), setLang_lookup_other h3 (by decide),
      setLang_lookup_other h2 (by decide)]
    exact setLang_lookup_self h1
  · rw [setLang_lookup_other h4 (by decide), setLang_lookup_other h3 (by decide)]
    exact setLang_lookup_self h2
  · rw [setLang_lookup_other h4 (by decide)]
    exact setLang_lookup_self h3
  · exact setLang_lookup_self h4

theorem C4_witness :
    autosave_review c4Form c4Tiers [] none = some c4Result ∧
    alookup c4Result.translations "en" = some (.dict ⟨"T", "D", ["a", "b"]⟩) ∧
    alookup c4Result.translations "de" = some (.dict ⟨"TD", "DD", []⟩) :=
  ⟨by decide,
   (C4_request_input_wins c4Form c4Tiers [] none c4Result (by decide)).1,
   (C4_request_input_wins c4Form c4Tiers [] none c4Result (by decide)).2.1⟩

theorem detect_none_of_no_match (url : String) (agents : List Agent) (g : List Char)
    (hs : adminChSearch url.data = some g)
    (h1 : agents.any (fun a => pyLower a.id == pyLower ("CH_" ++ pyUpper (String.mk g))) = false)
    (h2 : agents.any (fun a => pyLower a.id == pyLower ("CH_" ++ pyLower (String.mk g))) = false) :
    detect_office_id_from_url url agents = none := by
  unfold detect_office_id_from_url
  rw [hs]
  by_cases hc : (url = "" || !containsSub "admin.ch".data url.data) = true
  · simp [hc]
  · simp only [hc, Bool.false_eq_true, if_false]
    split <;> simp [h1, h2]

/-- Claim C7: publisher auto-detection is a pure function of the candidate URL
list and the directory snapshot — for `https://bafu.admin.ch/api/x` with an
agent `CH_BAFU` it returns `CH_BAFU`; when no agent id case-insensitively
matches `CH_BAFU`/`CH_bafu` it returns none and the `/ai` block leaves
`selected_agency` unset; and the same inputs always give the same result. -/
theorem C7_publisher_detection :
    detect_office_id_from_url "https://bafu.admin.ch/api/x" [⟨"CH_BAFU"⟩] = some "CH_BAFU"
    ∧ (∀ agents : List Agent, (∀ a ∈ agents, pyLower a.id ≠ "ch_bafu") →
        detect_office_id_from_url "https://bafu.admin.ch/api/x" agents = none
        ∧ ai_detect_selected_agency "https://bafu.admin.ch/api/x" "" agents "" = "")
    ∧ (∀ (url : String) (agents : List Agent),
        detect_office_id_from_url url agents = detect_office_id_from_url url agents) := by
  refine ⟨by decide, ?_, fun _ _ => rfl⟩
  intro agents h
  have key : ∀ pid : String, pyLower pid = "ch_bafu" →
      agents.any (fun a => pyLower a.id == pyLower pid) = false := by
    intro pid hpid
    rw [Bool.eq_false_iff]
    intro hc
    rw [List.any_eq_true] at hc
    obtain ⟨a, ha, hpa⟩ := hc
    rw [beq_iff_eq, hpid] at hpa
    exact h a ha hpa
  have hdet : detect_office_id_from_url "https://bafu.admin.ch/api/x" agents = none :=
    detect_none_of_no_match _ agents "bafu".data (by decide)
      (key _ (by decide)) (key _ (by decide))
  refine ⟨hdet, ?_⟩
  unfold ai_detect_selected_agency
  rw [hdet]
  simp [detect_office_id_from_url]

theorem C7_witness :
    detect_office_id_from_url "https://bafu.admin.ch/api/x" [⟨"CH_OTHER"⟩] = none ∧
    ai_detect_selected_agency "https://bafu.admin.ch/api/x" "" [⟨"CH_OTHER"⟩] "" = "" :=
  C7_publisher_detection.2.1 [⟨"CH_OTHER"⟩] (by decide)

/-- Claim C10 counterexample: the id `"a\n"` contains a character (the
newline) outside lowercase hex digits and `'-'`, yet Python's
`re.match(r'^[a-f0-9-]+$', ...)` accepts it because `$` also matches just
before a trailing newline — so `save_processing_data` writes a file and
returns `True`, and `load_processing_data` reads and deletes that file. -/
theorem C10_counterexample :
    ("a\n".data.any (fun c => !hexDashChar c) = true) ∧
    save_processing_data "a\n" {} [] = (true, [(tmpFileName "a\n", {})]) ∧
    load_processing_data "a\n" [(tmpFileName "a\n", {})] = (some {}, []) := by
  decide

/-- Claim C10 (amended): the hand-off validates ids with Python's
`^[a-f0-9-]+$`, under which `$` also matches before one trailing newline.
For every processing id rejected by that test, `save_processing_data`
returns `False` and `load_processing_data` returns `None`, both leaving the
file store untouched; an id of allowed characters plus a single trailing
newline, however, is accepted and does reach the filesystem. -/
theorem C10_validation_gate (procId : String) (d : StoredData) (files : FileStore)
    (h : pyMatchHexDash procId = false) :
    save_processing_data procId d files = (false, files) ∧
    load_processing_data procId files = (none, files) := by
  simp [save_processing_data, load_processing_data, h]

theorem C10_witness :
    save_processing_data "XYZ!" {} [] = (false, []) ∧
    load_processing_data "XYZ!" [] = (none, []) :=
  C10_validation_gate "XYZ!" {} [] (by decide)

/-- Claim C9 (code bug): the auto-translation loop of `/save_api_details` is
dead code — `from utils.deepl_utils import translate_to_language` always
raises `ImportError` because `utils/deepl_utils.py` defines no function of
that name — so for every translation oracle, even one that succeeds for every
target language, the stored map is exactly the English-seeded structure:
`de`, `fr`, `it` stay empty (though all four keys are present, matching the
failed-languages-stay-empty part of the claim). -/
theorem C9_auto_translation_dead :
    (∀ (oracle : String → Option LangTranslation) (title description : String)
        (keywords : List String),
      save_api_details_mkTranslations oracle title description keywords =
        synthTranslations title description keywords) ∧
    alookup (save_api_details_mkTranslations c9GoodOracle "My API" "Desc" ["a"]) "en" =
      some (.dict ⟨"My API", "Desc", ["a"]⟩) ∧
    alookup (save_api_details_mkTranslations c9GoodOracle "My API" "Desc" ["a"]) "de" =
      some emptyEntry ∧
    alookup (save_api_details_mkTranslations c9GoodOracle "My API" "Desc" ["a"]) "fr" =
      some emptyEntry ∧
    alookup (save_api_details_mkTranslations c9GoodOracle "My API" "Desc" ["a"]) "it" =
      some emptyEntry := by
  have hdead : ¬(deepl_utils_module_names.contains "translate_to_language" = true) := by decide
  refine ⟨fun oracle title description keywords => ?_, by decide, by decide, by decide, by decide⟩
  simp only [save_api_details_mkTranslations, if_neg hdead]

/-- Claim C3: polling consumes a terminal job at most once — under the states
the pipeline actually produces (a non-empty uuid-shaped id, and for a
`complete` entry a saved payload file), the first poll that observes the
terminal status returns it (the error message, or `complete`), deletes the
registry entry, and every further poll with the same id gets the
"Processing session expired" error instead of the stale terminal result. -/
theorem C3_terminal_consumed_once (pid : String) (e : JobEntry) (st : SrvState)
    (fresh1 fresh2 : String) (d : StoredData)
    (hpid : pid ≠ "")
    (hreg : alookup st.registry pid = some e)
    (hterm : e.status = .error ∨
      (e.status = .complete ∧ pyMatchHexDash pid = true ∧ escapesTempDir pid = false ∧
       alookup st.files (tmpFileName pid) = some d)) :
    ((check_processing_status (some pid) fresh1 st).1 = .err ((e.errMsg).getD "Unknown error") ∨
     (check_processing_status (some pid) fresh1 st).1 = .complete) ∧
    alookup (check_processing_status (some pid) fresh1 st).2.registry pid = none ∧
    (check_processing_status (some pid) fresh2 (check_processing_status (some pid) fresh1 st).2).1 =
      .err expiredMsg := by
  rcases hterm with hstat | ⟨hstat, hm, hesc, hfile⟩
  · refine ⟨Or.inl ?_, ?_, ?_⟩ <;>
      simp [check_processing_status, pyOrOpt, pyTruthyS, hpid, hreg, hstat,
        alookup_aremove_self]
  · have hload : load_processing_data pid st.files =
        (some d, aremove st.files (tmpFileName pid)) := by
      simp [load_processing_data, hm, hesc, hfile]
    refine ⟨Or.inr ?_, ?_, ?_⟩ <;>
      simp [check_processing_status, pyOrOpt, pyTruthyS, hpid, hreg, hstat, hload,
        alookup_aremove_self]

theorem C3_witness :
    ((check_processing_status (some "abc") "f1" c3State).1 = .err "boom" ∨
     (check_processing_status (some "abc") "f1" c3State).1 = .complete) ∧
    alookup (check_processing_status (some "abc") "f1" c3State).2.registry "abc" = none ∧
    (check_processing_status (some "abc") "f2"
        (check_processing_status (some "abc") "f1" c3State).2).1 = .err expiredMsg :=
  C3_terminal_consumed_once "abc" ⟨.error, none, some "boom"⟩ c3State "f1" "f2" {}
    (by decide) (by decide) (Or.inl rfl)

theorem update_progress_some (st : SrvState) (pid : String) (p : Progress) (e : JobEntry)
    (h : alookup st.registry pid = some e) :
    update_progress st pid p =
      ({ st with registry := aset st.registry pid { e with progress := some p } }, some p) := by
  simp [update_progress, h]

theorem process_finish_eval (co : Collaborators) (pid su lu : String) (sw : SwaggerInfo)
    (lpc : String) (dls : List DocLink) (adr : AddressData) (scraped : Bool)
    (st : SrvState) (tr : List Progress) (e : JobEntry)
    (h : alookup st.registry pid = some e) :
    (process_finish co pid su lu sw lpc dls adr scraped st tr).trace =
      tr ++ [⟨"Loading metadata", 75, 2, 3⟩, ⟨"Finalizing", 99, 3, 3⟩] ∧
    (process_finish co pid su lu sw lpc dls adr scraped st tr).scrapeCalled = scraped := by
  constructor <;>
    simp [process_finish, update_progress, h, alookup_aset_self]

theorem process_trace_cases (co : Collaborators) (pid su lu : String) (st : SrvState)
    (e : JobEntry) (h : alookup st.registry pid = some e) :
    (process_api_data co pid su lu st).trace.map (fun p => p.percent) = [15] ∨
    (process_api_data co pid su lu st).trace.map (fun p => p.percent) = [15, 40, 50] ∨
    (process_api_data co pid su lu st).trace.map (fun p => p.percent) = [15, 40, 50, 75, 99] := by
  cases hsw : co.extract_swagger_info su with
  | error msg =>
    left
    simp [process_api_data, update_progress, h, hsw]
  | ok sw =>
    by_cases hlu : lu ≠ "" ∧ pyStrip lu ≠ ""
    · cases hweb : co.extract_web_content lu with
      | error msg =>
        right; left
        simp [process_api_data, update_progress, h, hsw, hlu, hweb, alookup_aset_self]
      | ok w =>
        right; right
        simp [process_api_data, process_finish, update_progress, h, hsw, hlu, hweb,
          alookup_aset_self]
    · right; right
      simp [process_api_data, process_finish, update_progress, h, hsw, hlu,
        alookup_aset_self]

/-- Claim C8: within one launch-and-run of the background pipeline, the
sequence of progress percents written to the job registry is a prefix of the
fixed checkpoint sequence 5 (at launch), 15, 40, 50, 75, 99, and is therefore
monotonically non-decreasing — for every collaborator behaviour and every
starting state. -/
theorem C8_progress_monotone (co : Collaborators) (wid su lu : String) (st : SrvState) :
    ((url_post_launch co wid su lu st).trace.map (fun p => p.percent)).isPrefixOf
        [5, 15, 40, 50, 75, 99] = true ∧
    List.Chain' (fun a b => a ≤ b)
      ((url_post_launch co wid su lu st).trace.map (fun p => p.percent)) := by
  have hmem : alookup (aset (aset st.registry wid ⟨.processing, none, none⟩) wid
        ⟨.processing, some ⟨"Initializing...", 5, 0, 3⟩, none⟩) wid =
      some ⟨.processing, some ⟨"Initializing...", 5, 0, 3⟩, none⟩ :=
    alookup_aset_self _ _ _
  have hc := process_trace_cases co wid su lu
    (SrvState.mk (aset (aset st.registry wid ⟨.processing, none, none⟩) wid
      ⟨.processing, some ⟨"Initializing...", 5, 0, 3⟩, none⟩) st.files st.sess)
    ⟨.processing, some ⟨"Initializing...", 5, 0, 3⟩, none⟩ hmem
  have htr : (url_post_launch co wid su lu st).trace =
      (⟨"Initializing...", 5, 0, 3⟩ : Progress) ::
        (process_api_data co wid su lu
          (SrvState.mk (aset (aset st.registry wid ⟨.processing, none, none⟩) wid
            ⟨.processing, some ⟨"Initializing...", 5, 0, 3⟩, none⟩) st.files st.sess)).trace := rfl
  rcases hc with hcase | hcase | hcase <;>
    rw [htr, List.map_cons, hcase] <;>
    refine ⟨by decide, ?_⟩ <;>
    simp [List.chain'_cons]

/-- Claim C6: when the submitted landing_page_url is empty or whitespace-only,
the pipeline never invokes the page-scraper collaborator, still reaches the
`complete` status (given the Swagger extraction returns and the uuid-shaped id
lets the payload save succeed), and the stored payload has
document_links = [], landing_page_content = '' and address_data = {}. -/
theorem C6_empty_landing_skips_scraper (co : Collaborators) (pid su lu : String)
    (st : SrvState) (e : JobEntry) (sw : SwaggerInfo)
    (hlu : pyStrip lu = "")
    (hreg : alookup st.registry pid = some e)
    (hsw : co.extract_swagger_info su = .ok sw)
    (hid : pyMatchHexDash pid = true) (hesc : escapesTempDir pid = false) :
    (process_api_data co pid su lu st).scrapeCalled = false ∧
    alookup (process_api_data co pid su lu st).state.files (tmpFileName pid) =
      some { swagger_info := some sw, landing_page_content := some "",
             document_links := some [], agents := some co.cached_agents,
             agents_error :=
               some (if co.cached_agents.isEmpty then some "Failed to fetch agents" else none),
             address_data := some [], swagger_url := some su, landing_page_url := some lu } ∧
    ((alookup (process_api_data co pid su lu st).state.registry pid).map JobEntry.status) =
      some JobStatus.complete := by
  have hcond : ¬(lu ≠ "" ∧ pyStrip lu ≠ "") := fun hc => hc.2 hlu
  refine ⟨?_, ?_, ?_⟩ <;>
    simp [process_api_data, process_finish, update_progress, markComplete,
      save_processing_data, hreg, hsw, hcond, hid, hesc, alookup_aset_self]

theorem C6_witness :
    (process_api_data c6Co "ab12" "u" " " c6State).scrapeCalled = false ∧
    alookup (process_api_data c6Co "ab12" "u" " " c6State).state.files (tmpFileName "ab12") =
      some { swagger_info := some ⟨"T", "D", [], none⟩, landing_page_content := some "",
             document_links := some [], agents := some c6Co.cached_agents,
             agents_error :=
               some (if c6Co.cached_agents.isEmpty then some "Failed to fetch agents" else none),
             address_data := some [], swagger_url := some "u", landing_page_url := some " " } ∧
    ((alookup (process_api_data c6Co "ab12" "u" " " c6State).state.registry "ab12").map
        JobEntry.status) = some JobStatus.complete :=
  C6_empty_landing_skips_scraper c6Co "ab12" "u" " " c6State ⟨.processing, none, none⟩
    ⟨"T", "D", [], none⟩ (by decide) (by decide) rfl (by decide) (by decide)
